import Mathlib

set_option maxRecDepth 100000

/-!
Verification development for the Blaze Intelligence Monte Carlo simulation
engine (src/monte_carlo.py).  The Python source computes, for a population of
N independent trials, revenue/cost streams from sampled parameter ranges and
aggregates them into a trial table, then summarizes that table.

Shallow embedding conventions:
* numpy double values are modelled by `FVal`: an exact rational together with
  the IEEE special values +inf, -inf and NaN.  Rational arithmetic is exact
  (rounding is idealized away); the propagation rules for the special values
  (NaN absorbs, inf plus -inf is NaN, finite divided by zero is signed inf,
  zero divided by zero is NaN, np.clip propagates NaN) follow IEEE-754 and
  numpy.
* The pseudo-random stream produced by the globally seeded numpy generator is
  made an explicit input: a `Tape` record holding, for each sampled factor,
  the stream of raw draws (uniform draws u in [0,1), standard-normal draws z,
  and raw nonnegative integers for randint).  Each numpy sampling call
  `low + (high-low)*u`, `mean + std*z`, `low + r mod width` is translated
  pointwise; all array operations in the source are elementwise, so the
  embedding computes one trial row per index.
-/

/-- Model of a numpy double: an exact rational or one of the IEEE special
values +inf, -inf, NaN. -/
inductive FVal : Type where
  | fin (q : ℚ)
  | posInf
  | negInf
  | nan
deriving DecidableEq, Repr

namespace FVal

/-- True exactly on the NaN value. -/
def isNaN : FVal → Bool
  | nan => true
  | _ => false

/-- True exactly on finite (rational) values. -/
def isFinite : FVal → Bool
  | fin _ => true
  | _ => false

end FVal

/-- IEEE negation. -/
def fneg : FVal → FVal
  | .fin q => .fin (-q)
  | .posInf => .negInf
  | .negInf => .posInf
  | .nan => .nan

/-- IEEE addition: NaN absorbs, inf plus -inf is NaN, inf dominates finite. -/
def fadd : FVal → FVal → FVal
  | .nan, _ => .nan
  | _, .nan => .nan
  | .posInf, .negInf => .nan
  | .negInf, .posInf => .nan
  | .posInf, _ => .posInf
  | _, .posInf => .posInf
  | .negInf, _ => .negInf
  | _, .negInf => .negInf
  | .fin a, .fin b => .fin (a + b)

/-- IEEE subtraction, defined as addition of the negation. -/
def fsub (a b : FVal) : FVal := fadd a (fneg b)

/-- IEEE multiplication: NaN absorbs, inf times zero is NaN, signs multiply. -/
def fmul : FVal → FVal → FVal
  | .nan, _ => .nan
  | _, .nan => .nan
  | .fin a, .fin b => .fin (a * b)
  | .posInf, .posInf => .posInf
  | .posInf, .negInf => .negInf
  | .negInf, .posInf => .negInf
  | .negInf, .negInf => .posInf
  | .posInf, .fin b => if b = 0 then .nan else if 0 < b then .posInf else .negInf
  | .fin a, .posInf => if a = 0 then .nan else if 0 < a then .posInf else .negInf
  | .negInf, .fin b => if b = 0 then .nan else if 0 < b then .negInf else .posInf
  | .fin a, .negInf => if a = 0 then .nan else if 0 < a then .negInf else .posInf

/-- IEEE division: NaN absorbs; a finite nonzero value divided by zero is a
signed infinity, zero divided by zero is NaN; a finite value divided by an
infinity is zero; an infinity divided by a finite value keeps the combined
sign (the model has a single unsigned rational zero, so division by zero uses
the sign of +0, matching the draws produced by the source); inf divided by
inf is NaN. -/
def fdiv : FVal → FVal → FVal
  | .nan, _ => .nan
  | _, .nan => .nan
  | .fin a, .fin b =>
      if b = 0 then (if a = 0 then .nan else if 0 < a then .posInf else .negInf)
      else .fin (a / b)
  | .fin _, .posInf => .fin 0
  | .fin _, .negInf => .fin 0
  | .posInf, .fin b => if 0 ≤ b then .posInf else .negInf
  | .negInf, .fin b => if 0 ≤ b then .negInf else .posInf
  | .posInf, _ => .nan
  | .negInf, _ => .nan

/-- IEEE comparison less-or-equal: false whenever either side is NaN. -/
def fleB : FVal → FVal → Bool
  | .nan, _ => false
  | _, .nan => false
  | .negInf, _ => true
  | _, .negInf => false
  | _, .posInf => true
  | .posInf, _ => false
  | .fin a, .fin b => decide (a ≤ b)

/-- IEEE comparison strictly-less: false whenever either side is NaN. -/
def fltB : FVal → FVal → Bool
  | .nan, _ => false
  | _, .nan => false
  | .posInf, _ => false
  | _, .posInf => true
  | _, .negInf => false
  | .negInf, _ => true
  | .fin a, .fin b => decide (a < b)

/-- IEEE absolute value. -/
def fabs : FVal → FVal
  | .fin q => .fin |q|
  | .posInf => .posInf
  | .negInf => .posInf
  | .nan => .nan

/-- Model of np.clip x lo hi = minimum (maximum x lo) hi with rational
bounds: NaN propagates through numpy minimum/maximum, +inf clips to hi,
-inf clips to lo (to min lo hi when the bounds are inverted, as numpy
does). -/
def fclip (x : FVal) (lo hi : ℚ) : FVal :=
  match x with
  | .nan => .nan
  | .posInf => .fin hi
  | .negInf => .fin (min lo hi)
  | .fin a => .fin (min (max a lo) hi)

/-- Bool test that a value is finite and inside the closed interval
[lo, hi]; NaN and the infinities are never in range. -/
def inRangeCC (v : FVal) (lo hi : ℚ) : Bool :=
  match v with
  | .fin q => decide (lo ≤ q ∧ q ≤ hi)
  | _ => false

/-- Source: the SimulationParameters dataclass (src/monte_carlo.py lines
23-69).  Each field is the declared (low, high) range; fields declared with
Python int bounds are modelled over ℤ, float bounds over ℚ.  The dataclass
performs no validation of its ranges. -/
structure SimulationParameters where
  basic_price : ℚ × ℚ
  pro_price : ℚ × ℚ
  enterprise_price : ℚ × ℚ
  basic_subscribers : ℤ × ℤ
  pro_subscribers : ℤ × ℤ
  enterprise_subscribers : ℤ × ℤ
  api_monthly_base : ℚ × ℚ
  api_per_call_revenue : ℚ × ℚ
  monthly_api_calls : ℤ × ℤ
  projects_per_month : ℤ × ℤ
  project_value : ℚ × ℚ
  annual_licensing_deals : ℤ × ℤ
  licensing_value : ℚ × ℚ
  infrastructure_monthly : ℚ × ℚ
  data_acquisition : ℚ × ℚ
  personnel_allocation : ℚ × ℚ
  marketing_monthly : ℚ × ℚ
  seasonality_factor : ℚ × ℚ
  market_growth_rate : ℚ × ℚ
  churn_rate : ℚ × ℚ
  automation_savings : ℚ × ℚ
  platform_efficiency : ℚ × ℚ
  baseball_impact : ℚ × ℚ
  football_impact : ℚ × ℚ
  basketball_impact : ℚ × ℚ
  track_field_impact : ℚ × ℚ
deriving DecidableEq

/-- The default field values of the SimulationParameters dataclass. -/
def defaultParams : SimulationParameters where
  basic_price := (29, 49)
  pro_price := (99, 149)
  enterprise_price := (499, 999)
  basic_subscribers := (50, 300)
  pro_subscribers := (20, 100)
  enterprise_subscribers := (5, 25)
  api_monthly_base := (500, 2000)
  api_per_call_revenue := (0.001, 0.01)
  monthly_api_calls := (100000, 1000000)
  projects_per_month := (1, 5)
  project_value := (2000, 15000)
  annual_licensing_deals := (2, 8)
  licensing_value := (10000, 50000)
  infrastructure_monthly := (500, 1500)
  data_acquisition := (1000, 3000)
  personnel_allocation := (2000, 5000)
  marketing_monthly := (500, 2000)
  seasonality_factor := (0.7, 1.3)
  market_growth_rate := (0.98, 1.15)
  churn_rate := (0.02, 0.08)
  automation_savings := (0.1, 0.3)
  platform_efficiency := (1.0, 1.5)
  baseball_impact := (0.9, 1.4)
  football_impact := (0.8, 1.3)
  basketball_impact := (0.7, 1.2)
  track_field_impact := (0.5, 0.9)

/-- Decidable form of the construction-time invariant stated by the spec:
low ≤ high for every declared factor range. -/
def paramsConsistent (p : SimulationParameters) : Bool :=
  decide (p.basic_price.1 ≤ p.basic_price.2) &&
  decide (p.pro_price.1 ≤ p.pro_price.2) &&
  decide (p.enterprise_price.1 ≤ p.enterprise_price.2) &&
  decide (p.basic_subscribers.1 ≤ p.basic_subscribers.2) &&
  decide (p.pro_subscribers.1 ≤ p.pro_subscribers.2) &&
  decide (p.enterprise_subscribers.1 ≤ p.enterprise_subscribers.2) &&
  decide (p.api_monthly_base.1 ≤ p.api_monthly_base.2) &&
  decide (p.api_per_call_revenue.1 ≤ p.api_per_call_revenue.2) &&
  decide (p.monthly_api_calls.1 ≤ p.monthly_api_calls.2) &&
  decide (p.projects_per_month.1 ≤ p.projects_per_month.2) &&
  decide (p.project_value.1 ≤ p.project_value.2) &&
  decide (p.annual_licensing_deals.1 ≤ p.annual_licensing_deals.2) &&
  decide (p.licensing_value.1 ≤ p.licensing_value.2) &&
  decide (p.infrastructure_monthly.1 ≤ p.infrastructure_monthly.2) &&
  decide (p.data_acquisition.1 ≤ p.data_acquisition.2) &&
  decide (p.personnel_allocation.1 ≤ p.personnel_allocation.2) &&
  decide (p.marketing_monthly.1 ≤ p.marketing_monthly.2) &&
  decide (p.seasonality_factor.1 ≤ p.seasonality_factor.2) &&
  decide (p.market_growth_rate.1 ≤ p.market_growth_rate.2) &&
  decide (p.churn_rate.1 ≤ p.churn_rate.2) &&
  decide (p.automation_savings.1 ≤ p.automation_savings.2) &&
  decide (p.platform_efficiency.1 ≤ p.platform_efficiency.2) &&
  decide (p.baseball_impact.1 ≤ p.baseball_impact.2) &&
  decide (p.football_impact.1 ≤ p.football_impact.2) &&
  decide (p.basketball_impact.1 ≤ p.basketball_impact.2) &&
  decide (p.track_field_impact.1 ≤ p.track_field_impact.2)

/-- The raw pseudo-random draws consumed by one run, made explicit.  The
globally seeded numpy generator determines one such record per seed; each
field is the stream of raw draws backing one sampled factor, indexed by trial
number.  Streams named with suffix U carry uniform draws u (intended range
[0,1)), suffix Z carry standard-normal draws z, suffix R carry the raw
nonnegative integers behind np.random.randint. -/
structure Tape where
  basicSubsR : ℕ → ℕ
  proSubsR : ℕ → ℕ
  entSubsR : ℕ → ℕ
  apiCallsR : ℕ → ℕ
  numProjectsR : ℕ → ℕ
  annualDealsR : ℕ → ℕ
  basicPriceU : ℕ → ℚ
  proPriceU : ℕ → ℚ
  entPriceU : ℕ → ℚ
  churnU : ℕ → ℚ
  apiBaseU : ℕ → ℚ
  perCallU : ℕ → ℚ
  seasonalityU : ℕ → ℚ
  growthU : ℕ → ℚ
  efficiencyU : ℕ → ℚ
  baseballU : ℕ → ℚ
  footballU : ℕ → ℚ
  basketballU : ℕ → ℚ
  trackU : ℕ → ℚ
  infrastructureU : ℕ → ℚ
  marketingU : ℕ → ℚ
  automationU : ℕ → ℚ
  projectValueZ : ℕ → ℚ
  dealValueZ : ℕ → ℚ
  dataAcqZ : ℕ → ℚ
  personnelZ : ℕ → ℚ

/-- A tape whose every stream is constant, used to instantiate theorems at
concrete inputs. -/
def tapeConst : Tape where
  basicSubsR := fun _ => 0
  proSubsR := fun _ => 0
  entSubsR := fun _ => 0
  apiCallsR := fun _ => 0
  numProjectsR := fun _ => 0
  annualDealsR := fun _ => 0
  basicPriceU := fun _ => 0
  proPriceU := fun _ => 0
  entPriceU := fun _ => 0
  churnU := fun _ => 0
  apiBaseU := fun _ => 0
  perCallU := fun _ => 0
  seasonalityU := fun _ => 0
  growthU := fun _ => 0
  efficiencyU := fun _ => 0
  baseballU := fun _ => 0
  footballU := fun _ => 0
  basketballU := fun _ => 0
  trackU := fun _ => 0
  infrastructureU := fun _ => 0
  marketingU := fun _ => 0
  automationU := fun _ => 0
  projectValueZ := fun _ => 0
  dealValueZ := fun _ => 0
  dataAcqZ := fun _ => 0
  personnelZ := fun _ => 0

/-- Source: BlazeIntelMonteCarlo sample uniform (lines 80-82).
np.random.uniform(low, high) realizes low + u * (high - low) with a raw draw
u in [0,1). -/
def sampleUniform (r : ℚ × ℚ) (u : ℚ) : ℚ := r.1 + u * (r.2 - r.1)

/-- Source: BlazeIntelMonteCarlo sample integer (lines 99-101).
np.random.randint(low, high + 1) draws an integer in [low, high]; the raw
draw is modelled as an arbitrary natural reduced modulo the width
high + 1 - low.  For low > high numpy raises; the value produced here in that
case is immaterial and no theorem relies on it. -/
def sampleInteger (r : ℤ × ℤ) (k : ℕ) : ℤ := r.1 + (k % (r.2 + 1 - r.1).toNat : ℕ)

/-- Source: BlazeIntelMonteCarlo sample normal bounded (lines 84-97).
mean = (low + high) / 2, std = (high - low) / 4; the raw normal draw z gives
samples = mean + std * z (always finite); for nonzero skew the source adds
skew * (samples - mean)^2 / std, a float division that is NaN when both the
squared deviation and std are zero; finally np.clip bounds the result, with
NaN passing through the clip. -/
def sampleNormalBounded (r : ℚ × ℚ) (skew : ℚ) (z : ℚ) : FVal :=
  let mean : ℚ := (r.1 + r.2) / 2
  let std : ℚ := (r.2 - r.1) / 4
  let x : ℚ := mean + std * z
  let skewed : FVal :=
    if skew = 0 then .fin x
    else fadd (.fin x) (fdiv (.fin (skew * (x - mean) ^ 2)) (.fin std))
  fclip skewed r.1 r.2

/-- Output record of simulate subscription revenue (source lines 103-131). -/
structure SubscriptionR where
  basic : FVal
  pro : FVal
  enterprise : FVal
  total_subscription : FVal
  total_subscribers : FVal
deriving DecidableEq

/-- Source: BlazeIntelMonteCarlo.simulate subscription revenue (lines
103-131), per trial index: three integer subscriber draws, three uniform
price draws, one shared uniform churn draw; retention = 1 - churn scales each
tier revenue and the total subscriber count. -/
def simulate_subscription_revenue (p : SimulationParameters) (t : Tape) (i : ℕ) :
    SubscriptionR :=
  let basic_subs : ℤ := sampleInteger p.basic_subscribers (t.basicSubsR i)
  let pro_subs : ℤ := sampleInteger p.pro_subscribers (t.proSubsR i)
  let enterprise_subs : ℤ := sampleInteger p.enterprise_subscribers (t.entSubsR i)
  let basic_price : ℚ := sampleUniform p.basic_price (t.basicPriceU i)
  let pro_price : ℚ := sampleUniform p.pro_price (t.proPriceU i)
  let enterprise_price : ℚ := sampleUniform p.enterprise_price (t.entPriceU i)
  let churn : ℚ := sampleUniform p.churn_rate (t.churnU i)
  let retention : ℚ := 1 - churn
  let basic_revenue : ℚ := basic_subs * basic_price * retention
  let pro_revenue : ℚ := pro_subs * pro_price * retention
  let enterprise_revenue : ℚ := enterprise_subs * enterprise_price * retention
  { basic := .fin basic_revenue
    pro := .fin pro_revenue
    enterprise := .fin enterprise_revenue
    total_subscription := .fin (basic_revenue + pro_revenue + enterprise_revenue)
    total_subscribers := .fin ((basic_subs + pro_subs + enterprise_subs) * retention) }

/-- Output record of simulate api revenue (source lines 133-148). -/
structure ApiR where
  api_base : FVal
  api_usage : FVal
  total_api : FVal
  api_calls : FVal
deriving DecidableEq

/-- Source: BlazeIntelMonteCarlo.simulate api revenue (lines 133-148). -/
def simulate_api_revenue (p : SimulationParameters) (t : Tape) (i : ℕ) : ApiR :=
  let base_revenue : ℚ := sampleUniform p.api_monthly_base (t.apiBaseU i)
  let per_call_revenue : ℚ := sampleUniform p.api_per_call_revenue (t.perCallU i)
  let monthly_calls : ℤ := sampleInteger p.monthly_api_calls (t.apiCallsR i)
  let usage_revenue : ℚ := monthly_calls * per_call_revenue
  { api_base := .fin base_revenue
    api_usage := .fin usage_revenue
    total_api := .fin (base_revenue + usage_revenue)
    api_calls := .fin monthly_calls }

/-- Output record of simulate project revenue (source lines 150-162). -/
structure ProjectR where
  project_count : FVal
  avg_project_value : FVal
  total_projects : FVal
deriving DecidableEq

/-- Source: BlazeIntelMonteCarlo.simulate project revenue (lines 150-162):
integer project count times a bounded-normal project value drawn with
skew 0.2. -/
def simulate_project_revenue (p : SimulationParameters) (t : Tape) (i : ℕ) : ProjectR :=
  let num_projects : ℤ := sampleInteger p.projects_per_month (t.numProjectsR i)
  let project_values : FVal := sampleNormalBounded p.project_value 0.2 (t.projectValueZ i)
  { project_count := .fin num_projects
    avg_project_value := project_values
    total_projects := fmul (.fin (num_projects : ℚ)) project_values }

/-- Output record of simulate licensing revenue (source lines 164-177). -/
structure LicensingR where
  annual_deals : FVal
  deal_value : FVal
  monthly_licensing : FVal
deriving DecidableEq

/-- Source: BlazeIntelMonteCarlo.simulate licensing revenue (lines 164-177):
integer deal count times an unskewed bounded-normal deal value, divided by
12. -/
def simulate_licensing_revenue (p : SimulationParameters) (t : Tape) (i : ℕ) : LicensingR :=
  let annual_deals : ℤ := sampleInteger p.annual_licensing_deals (t.annualDealsR i)
  let deal_values : FVal := sampleNormalBounded p.licensing_value 0 (t.dealValueZ i)
  { annual_deals := .fin annual_deals
    deal_value := deal_values
    monthly_licensing := fdiv (fmul (.fin (annual_deals : ℚ)) deal_values) (.fin 12) }

/-- Output record of simulate costs (source lines 179-204). -/
structure CostsR where
  infrastructure : FVal
  data_acquisition : FVal
  personnel : FVal
  marketing : FVal
  total_costs : FVal
  automation_savings : FVal
deriving DecidableEq

/-- Source: BlazeIntelMonteCarlo.simulate costs (lines 179-204):
infrastructure and marketing uniform, data acquisition and personnel
unskewed bounded-normal; a uniform automation draw scales infrastructure by
1 - automation * 0.5, data acquisition by 1 - automation * 0.3 and personnel
by 1 - automation * 0.2; total is the sum of the four scaled costs. -/
def simulate_costs (p : SimulationParameters) (t : Tape) (i : ℕ) : CostsR :=
  let infrastructure0 : ℚ := sampleUniform p.infrastructure_monthly (t.infrastructureU i)
  let data_acq0 : FVal := sampleNormalBounded p.data_acquisition 0 (t.dataAcqZ i)
  let personnel0 : FVal := sampleNormalBounded p.personnel_allocation 0 (t.personnelZ i)
  let marketing : ℚ := sampleUniform p.marketing_monthly (t.marketingU i)
  let automation : ℚ := sampleUniform p.automation_savings (t.automationU i)
  let infrastructure : ℚ := infrastructure0 * (1 - automation * 0.5)
  let data_acq : FVal := fmul data_acq0 (.fin (1 - automation * 0.3))
  let personnel : FVal := fmul personnel0 (.fin (1 - automation * 0.2))
  let total_costs : FVal :=
    fadd (fadd (fadd (.fin infrastructure) data_acq) personnel) (.fin marketing)
  { infrastructure := .fin infrastructure
    data_acquisition := data_acq
    personnel := personnel
    marketing := .fin marketing
    total_costs := total_costs
    automation_savings := .fin automation }

/-- Source: BlazeIntelMonteCarlo.apply market factors (lines 206-223), per
trial: base revenue times uniform seasonality, growth and platform
efficiency, times the sport composite baseball*0.35 + football*0.30 +
basketball*0.25 + track*0.10. -/
def apply_market_factors (p : SimulationParameters) (t : Tape) (i : ℕ)
    (base_revenue : FVal) : FVal :=
  let seasonality : ℚ := sampleUniform p.seasonality_factor (t.seasonalityU i)
  let growth : ℚ := sampleUniform p.market_growth_rate (t.growthU i)
  let efficiency : ℚ := sampleUniform p.platform_efficiency (t.efficiencyU i)
  let baseball : ℚ := sampleUniform p.baseball_impact (t.baseballU i) * 0.35
  let football : ℚ := sampleUniform p.football_impact (t.footballU i) * 0.30
  let basketball : ℚ := sampleUniform p.basketball_impact (t.basketballU i) * 0.25
  let track : ℚ := sampleUniform p.track_field_impact (t.trackU i) * 0.10
  let sports_factor : ℚ := baseball + football + basketball + track
  fmul (fmul (fmul (fmul base_revenue (.fin seasonality)) (.fin growth))
    (.fin efficiency)) (.fin sports_factor)

/-- One row of the trial table assembled by run simulation (source lines
262-290), one field per results column. -/
structure TrialRow where
  subscription_revenue : FVal
  api_revenue : FVal
  project_revenue : FVal
  licensing_revenue : FVal
  total_costs : FVal
  infrastructure_cost : FVal
  data_cost : FVal
  personnel_cost : FVal
  marketing_cost : FVal
  gross_revenue : FVal
  adjusted_revenue : FVal
  gross_profit : FVal
  profit_margin : FVal
  roi_percent : FVal
  monthly_value : FVal
  hours_saved : FVal
  total_subscribers : FVal
  api_calls : FVal
  project_count : FVal
  automation_savings : FVal
deriving DecidableEq

/-- Source: BlazeIntelMonteCarlo.run simulation (lines 225-293) restricted to
one trial index: all four revenue streams, market adjustment, costs, and the
derived profitability columns gross profit, profit margin, roi and hours
saved (gross profit / 55). -/
def run_simulation_row (p : SimulationParameters) (t : Tape) (i : ℕ) : TrialRow :=
  let subscription := simulate_subscription_revenue p t i
  let api := simulate_api_revenue p t i
  let projects := simulate_project_revenue p t i
  let licensing := simulate_licensing_revenue p t i
  let total_revenue : FVal :=
    fadd (fadd (fadd subscription.total_subscription api.total_api)
      projects.total_projects) licensing.monthly_licensing
  let adjusted_revenue : FVal := apply_market_factors p t i total_revenue
  let costs := simulate_costs p t i
  let gross_profit : FVal := fsub adjusted_revenue costs.total_costs
  let profit_margin : FVal := fdiv gross_profit adjusted_revenue
  let roi : FVal := fmul (fdiv gross_profit costs.total_costs) (.fin 100)
  let hours_saved : FVal := fdiv gross_profit (.fin 55)
  { subscription_revenue := subscription.total_subscription
    api_revenue := api.total_api
    project_revenue := projects.total_projects
    licensing_revenue := licensing.monthly_licensing
    total_costs := costs.total_costs
    infrastructure_cost := costs.infrastructure
    data_cost := costs.data_acquisition
    personnel_cost := costs.personnel
    marketing_cost := costs.marketing
    gross_revenue := total_revenue
    adjusted_revenue := adjusted_revenue
    gross_profit := gross_profit
    profit_margin := profit_margin
    roi_percent := roi
    monthly_value := gross_profit
    hours_saved := hours_saved
    total_subscribers := subscription.total_subscribers
    api_calls := api.api_calls
    project_count := projects.project_count
    automation_savings := costs.automation_savings }

/-- The full trial table of a run: one row per trial index below the trial
count. -/
def runResults (p : SimulationParameters) (t : Tape) (n : ℕ) : List TrialRow :=
  (List.range n).map (run_simulation_row p t)

/-- Error taxonomy of the engine as named by the specification.  The source
raises ValueError with the message Must run simulation first when statistics
or sensitivity are requested before a run; the spec calls that category
EngineStateError.  ConfigurationError is the spec name for an invalid range
rejection (the source performs no such validation). -/
inductive EngineError : Type where
  | engineStateError
  | configurationError
deriving DecidableEq

/-- Source: the engine object state (lines 72-78): parameters, requested
trial count, and the results table, None until a run completes. -/
structure Engine where
  params : SimulationParameters
  n_simulations : ℕ
  results : Option (List TrialRow)

/-- Source: BlazeIntelMonteCarlo init (lines 75-78): stores the parameters
and trial count unchecked and sets results to None. -/
def Engine.init (p : SimulationParameters) (n : ℕ) : Engine :=
  { params := p, n_simulations := n, results := none }

/-- Source: BlazeIntelMonteCarlo.run simulation (lines 225-293): computes the
trial table from the parameters and the random tape, stores it on the engine
and returns it. -/
def Engine.run_simulation (e : Engine) (t : Tape) : Engine × List TrialRow :=
  let r := runResults e.params t e.n_simulations
  ({ params := e.params, n_simulations := e.n_simulations, results := some r }, r)

/-- Order relation on values used to sort NaN-free lists for medians,
quantiles, min and max. -/
def fvalLE (a b : FVal) : Prop := fleB a b = true

instance : DecidableRel fvalLE := fun a b => by unfold fvalLE; infer_instance

/-- Drop the NaN entries of a column, as the pandas skipna aggregations do. -/
def dropNaN (l : List FVal) : List FVal := l.filter (fun x => ! x.isNaN)

/-- Sum of a column in IEEE arithmetic. -/
def fsum (l : List FVal) : FVal := l.foldl fadd (.fin 0)

/-- The NaN-free entries of a column, sorted ascending. -/
def sortVals (l : List FVal) : List FVal := List.insertionSort fvalLE (dropNaN l)

/-- Model of pandas Series.mean: drop NaN, sum the rest and divide by their
count; NaN on an all-NaN or empty column.  Infinite entries are NOT dropped:
they flow into the sum and hence into the mean. -/
def pandasMean (l : List FVal) : FVal :=
  let v := dropNaN l
  if v.length = 0 then .nan else fdiv (fsum v) (.fin v.length)

/-- Model of pandas Series.median: middle of the sorted NaN-free entries, or
the average of the two middle entries. -/
def pandasMedian (l : List FVal) : FVal :=
  let v := sortVals l
  let n := v.length
  if n = 0 then .nan
  else if n % 2 = 1 then v.getD (n / 2) .nan
  else fdiv (fadd (v.getD (n / 2 - 1) .nan) (v.getD (n / 2) .nan)) (.fin 2)

/-- Model of pandas Series.quantile with linear interpolation over the sorted
NaN-free entries. -/
def pandasQuantile (q : ℚ) (l : List FVal) : FVal :=
  let v := sortVals l
  let n := v.length
  if n = 0 then .nan
  else
    let pos : ℚ := q * ((n : ℚ) - 1)
    let lo : ℕ := Nat.floor pos
    let frac : ℚ := pos - (lo : ℚ)
    if lo + 1 < n then
      fadd (v.getD lo .nan)
        (fmul (.fin frac) (fsub (v.getD (lo + 1) .nan) (v.getD lo .nan)))
    else v.getD lo .nan

/-- Integer-square-root placeholder for the irrational real square root of a
nonnegative rational: exact whenever numerator and denominator are perfect
squares.  No theorem in this development depends on the finite values it
produces; it only keeps the standard-deviation field of the summary rows
total and computable. -/
def ratSqrt (q : ℚ) : ℚ := (Nat.sqrt q.num.toNat : ℚ) / (Nat.sqrt q.den : ℚ)

/-- IEEE square root on the special values: NaN for negative arguments and
NaN, +inf for +inf; see ratSqrt for the finite case. -/
def fsqrt : FVal → FVal
  | .nan => .nan
  | .negInf => .nan
  | .posInf => .posInf
  | .fin q => if q < 0 then .nan else .fin (ratSqrt q)

/-- Model of pandas Series.std (ddof = 1): square root of the sum of squared
deviations from the mean over count - 1, on the NaN-free entries; NaN when
fewer than two remain. -/
def pandasStd (l : List FVal) : FVal :=
  let v := dropNaN l
  let n := v.length
  if n ≤ 1 then .nan
  else
    let m := pandasMean l
    fsqrt (fdiv (fsum (v.map (fun x => fmul (fsub x m) (fsub x m)))) (.fin ((n : ℚ) - 1)))

/-- Model of pandas Series.min (skipna): least NaN-free entry, NaN if none. -/
def pandasMin (l : List FVal) : FVal := (sortVals l).headD .nan

/-- Model of pandas Series.max (skipna): greatest NaN-free entry, NaN if
none. -/
def pandasMax (l : List FVal) : FVal := (sortVals l).getLastD .nan

/-- The six outcome columns summarized by generate statistics (source lines
301-304). -/
inductive MetricId : Type where
  | monthly_value
  | adjusted_revenue
  | gross_profit
  | roi_percent
  | hours_saved
  | total_subscribers
deriving DecidableEq

/-- Column projection of a metric from a trial row. -/
def metricColumn : MetricId → TrialRow → FVal
  | .monthly_value => TrialRow.monthly_value
  | .adjusted_revenue => TrialRow.adjusted_revenue
  | .gross_profit => TrialRow.gross_profit
  | .roi_percent => TrialRow.roi_percent
  | .hours_saved => TrialRow.hours_saved
  | .total_subscribers => TrialRow.total_subscribers

/-- The key metrics list of generate statistics, in source order. -/
def key_metrics : List MetricId :=
  [.monthly_value, .adjusted_revenue, .gross_profit, .roi_percent,
   .hours_saved, .total_subscribers]

/-- One summary row of generate statistics (source lines 308-319): the
display string for the metric name is presentation glue and is replaced by
the metric identifier. -/
structure StatRow where
  Metric : MetricId
  Mean : FVal
  Median : FVal
  StdDev : FVal
  q05 : FVal
  q25 : FVal
  q75 : FVal
  q95 : FVal
  Min : FVal
  Max : FVal
deriving DecidableEq

/-- Builds the summary row of one metric column exactly as the source dict
literal does (source lines 308-319). -/
def mkStatRow (m : MetricId) (col : List FVal) : StatRow :=
  { Metric := m
    Mean := pandasMean col
    Median := pandasMedian col
    StdDev := pandasStd col
    q05 := pandasQuantile (1/20) col
    q25 := pandasQuantile (1/4) col
    q75 := pandasQuantile (3/4) col
    q95 := pandasQuantile (19/20) col
    Min := pandasMin col
    Max := pandasMax col }

/-- Source: BlazeIntelMonteCarlo.generate statistics (lines 295-322): raises
when no run has stored a results table (modelled by the engineStateError
value standing for the ValueError the source raises), otherwise returns one
summary row per key metric.  No value is excluded beyond the NaN skipping
built into the pandas aggregations, and no exclusion count appears in the
output. -/
def Engine.generate_statistics (e : Engine) : Except EngineError (List StatRow) :=
  match e.results with
  | none => .error .engineStateError
  | some rows =>
      .ok (key_metrics.map (fun m => mkStatRow m (rows.map (metricColumn m))))

/-- The six input stream columns examined by sensitivity analysis (source
lines 426-429). -/
inductive FactorId : Type where
  | subscription_revenue
  | api_revenue
  | project_revenue
  | licensing_revenue
  | total_costs
  | automation_savings
deriving DecidableEq

/-- Column projection of a sensitivity factor from a trial row. -/
def factorColumn : FactorId → TrialRow → FVal
  | .subscription_revenue => TrialRow.subscription_revenue
  | .api_revenue => TrialRow.api_revenue
  | .project_revenue => TrialRow.project_revenue
  | .licensing_revenue => TrialRow.licensing_revenue
  | .total_costs => TrialRow.total_costs
  | .automation_savings => TrialRow.automation_savings

/-- The factor list of sensitivity analysis, in source order. -/
def sens_factors : List FactorId :=
  [.subscription_revenue, .api_revenue, .project_revenue,
   .licensing_revenue, .total_costs, .automation_savings]

/-- The index pairs on which pandas Series.corr operates: pairs where
neither entry is NaN. -/
def validPairs (xs ys : List FVal) : List (FVal × FVal) :=
  (xs.zip ys).filter (fun pr => ! (pr.1.isNaN || pr.2.isNaN))

/-- Model of pandas Series.corr (Pearson): on the pairwise NaN-free entries,
the sum of products of deviations divided by the square roots of the two sums
of squared deviations; NaN with fewer than two valid pairs, and NaN for a
zero-variance column (zero divided by zero). -/
def pearson_corr (xs ys : List FVal) : FVal :=
  let ps := validPairs xs ys
  let n := ps.length
  if n < 2 then .nan
  else
    let mx := fdiv (fsum (ps.map Prod.fst)) (.fin n)
    let my := fdiv (fsum (ps.map Prod.snd)) (.fin n)
    let sxy := fsum (ps.map (fun pr => fmul (fsub pr.1 mx) (fsub pr.2 my)))
    let sxx := fsum (ps.map (fun pr => fmul (fsub pr.1 mx) (fsub pr.1 mx)))
    let syy := fsum (ps.map (fun pr => fmul (fsub pr.2 my) (fsub pr.2 my)))
    fdiv sxy (fmul (fsqrt sxx) (fsqrt syy))

/-- One row of the sensitivity table (source lines 436-441). -/
structure SensRow where
  Factor : FactorId
  Correlation : FVal
  ImpactScore : FVal
  RelativeImportance : String
deriving DecidableEq

/-- Builds the sensitivity row of one factor exactly as the source loop body
does (lines 432-441): correlation of the primary column against the factor
column, impact = (std of factor / mean of factor) * abs correlation, and the
coarse label from the abs-correlation thresholds 0.3 and 0.1 (IEEE
comparisons, so a NaN correlation falls through to Low as in Python). -/
def mkSensRow (primary col : List FVal) (f : FactorId) : SensRow :=
  let correlation := pearson_corr primary col
  let impact := fmul (fdiv (pandasStd col) (pandasMean col)) (fabs correlation)
  { Factor := f
    Correlation := correlation
    ImpactScore := impact
    RelativeImportance :=
      if fltB (.fin 0.3) (fabs correlation) = true then "High"
      else if fltB (.fin 0.1) (fabs correlation) = true then "Medium"
      else "Low" }

/-- Sort key embedding the pandas descending sort with NaN placed last:
grade -2 for NaN, -1 for -inf, 0 for finite (tie-broken by the rational
value), 1 for +inf. -/
def sortKey (v : FVal) : ℤ × ℚ :=
  match v with
  | .nan => (-2, 0)
  | .negInf => (-1, 0)
  | .fin q => (0, q)
  | .posInf => (1, 0)

/-- Row a may precede row b in the sensitivity output: the impact score of b
is at most that of a in the lexicographic key order (descending impact, NaN
last), the order realized by sort values on the Impact Score column with
ascending False. -/
def SensLE (a b : SensRow) : Prop :=
  (sortKey b.ImpactScore).1 < (sortKey a.ImpactScore).1 ∨
    ((sortKey b.ImpactScore).1 = (sortKey a.ImpactScore).1 ∧
      (sortKey b.ImpactScore).2 ≤ (sortKey a.ImpactScore).2)

instance : DecidableRel SensLE := fun a b => by unfold SensLE; infer_instance

instance : IsTotal SensRow SensLE := by
  constructor
  intro a b
  unfold SensLE
  rcases lt_trichotomy (sortKey b.ImpactScore).1 (sortKey a.ImpactScore).1 with h | h | h
  · exact Or.inl (Or.inl h)
  · rcases le_total (sortKey b.ImpactScore).2 (sortKey a.ImpactScore).2 with h2 | h2
    · exact Or.inl (Or.inr ⟨h, h2⟩)
    · exact Or.inr (Or.inr ⟨h.symm, h2⟩)
  · exact Or.inr (Or.inl h)

instance : IsTrans SensRow SensLE := by
  constructor
  intro a b c hab hbc
  unfold SensLE at *
  rcases hab with h1 | ⟨h1, h1q⟩ <;> rcases hbc with h2 | ⟨h2, h2q⟩
  · exact Or.inl (lt_trans h2 h1)
  · exact Or.inl (lt_of_eq_of_lt h2 h1)
  · exact Or.inl (lt_of_lt_of_eq h2 h1)
  · exact Or.inr ⟨h2.trans h1, h2q.trans h1q⟩

/-- Source: BlazeIntelMonteCarlo.sensitivity analysis (lines 419-443): raises
when no run has stored a results table, otherwise builds one row per factor
(correlating the monthly value column against the factor column) and returns
them sorted by Impact Score descending. -/
def Engine.sensitivity_analysis (e : Engine) : Except EngineError (List SensRow) :=
  match e.results with
  | none => .error .engineStateError
  | some rows =>
      let primary := rows.map TrialRow.monthly_value
      .ok (List.insertionSort SensLE
        (sens_factors.map (fun f => mkSensRow primary (rows.map (factorColumn f)) f)))

/-- Modelled from the spec: the Summarizer section demands that summary
statistics be computed over all valid (finite) trial values, excluding every
non-finite value.  The source has no such exclusion; this definition follows
the words of the spec for comparison with pandasMean.  NaN results when
every value is excluded. -/
def specExcludingMean (l : List FVal) : FVal :=
  let v := l.filter (fun x => x.isFinite)
  if v.length = 0 then .nan else fdiv (fsum v) (.fin v.length)

/-- Modelled from the spec: construction-time validation of the parameter
ranges, failing with a ConfigurationError when any factor range has
low > high.  The source performs no such validation; this definition follows
the words of the spec for comparison with Engine.init. -/
def specValidate (p : SimulationParameters) : Except EngineError SimulationParameters :=
  if paramsConsistent p = true then .ok p else .error .configurationError

/-- Parameter set with an inverted basic price range, used to exercise the
absence of construction-time validation. -/
def badParams : SimulationParameters := { defaultParams with basic_price := (49, 29) }

/-- Parameter set whose churn range sits entirely above 1, used to exercise
the unclamped retention factor. -/
def negChurnParams : SimulationParameters := { defaultParams with churn_rate := (2, 2) }

/-- Parameter set with all four cost ranges collapsed to (0, 0). -/
def zeroCostParams : SimulationParameters :=
  { defaultParams with
      infrastructure_monthly := (0, 0)
      data_acquisition := (0, 0)
      personnel_allocation := (0, 0)
      marketing_monthly := (0, 0) }

/-- Parameter set with a degenerate project value range. -/
def degParams : SimulationParameters := { defaultParams with project_value := (5000, 5000) }

/-- Parameter set with all four cost ranges and the seasonality range
collapsed to (0, 0), so a trial has both denominators (total costs and
adjusted revenue) equal to zero. -/
def zeroDenomParams : SimulationParameters :=
  { zeroCostParams with seasonality_factor := (0, 0) }

/-- C4: for every parameter set, tape and trial index, the outcome columns of
the produced trial row satisfy gross_profit = adjusted_revenue - total_costs,
profit_margin = gross_profit / adjusted_revenue,
roi_percent = (gross_profit / total_costs) * 100, and
hours_saved = gross_profit / 55, in exact IEEE-modelled arithmetic. -/
theorem aggregation_identities (p : SimulationParameters) (t : Tape) (i : ℕ) :
    (run_simulation_row p t i).gross_profit =
      fsub (run_simulation_row p t i).adjusted_revenue
        (run_simulation_row p t i).total_costs ∧
    (run_simulation_row p t i).profit_margin =
      fdiv (run_simulation_row p t i).gross_profit
        (run_simulation_row p t i).adjusted_revenue ∧
    (run_simulation_row p t i).roi_percent =
      fmul (fdiv (run_simulation_row p t i).gross_profit
        (run_simulation_row p t i).total_costs) (.fin 100) ∧
    (run_simulation_row p t i).hours_saved =
      fdiv (run_simulation_row p t i).gross_profit (.fin 55) :=
  ⟨rfl, rfl, rfl, rfl⟩

/-- C7: for every trial, the adjusted revenue equals the pre-adjustment gross
revenue multiplied by the sampled seasonality, growth and platform-efficiency
factors and by the sport composite 0.35 baseball + 0.30 football +
0.25 basketball + 0.10 track, and those four weights sum to exactly 1. -/
theorem market_adjustment_composite (p : SimulationParameters) (t : Tape) (i : ℕ) :
    (run_simulation_row p t i).adjusted_revenue =
      fmul (fmul (fmul (fmul (run_simulation_row p t i).gross_revenue
        (.fin (sampleUniform p.seasonality_factor (t.seasonalityU i))))
        (.fin (sampleUniform p.market_growth_rate (t.growthU i))))
        (.fin (sampleUniform p.platform_efficiency (t.efficiencyU i))))
        (.fin (0.35 * sampleUniform p.baseball_impact (t.baseballU i) +
               0.30 * sampleUniform p.football_impact (t.footballU i) +
               0.25 * sampleUniform p.basketball_impact (t.basketballU i) +
               0.10 * sampleUniform p.track_field_impact (t.trackU i))) ∧
    (0.35 + 0.30 + 0.25 + 0.10 : ℚ) = 1 := by
  constructor
  · have h : (run_simulation_row p t i).adjusted_revenue =
        apply_market_factors p t i (run_simulation_row p t i).gross_revenue := rfl
    have h2 : (sampleUniform p.baseball_impact (t.baseballU i) * 0.35 +
        sampleUniform p.football_impact (t.footballU i) * 0.30 +
        sampleUniform p.basketball_impact (t.basketballU i) * 0.25 +
        sampleUniform p.track_field_impact (t.trackU i) * 0.10 : ℚ) =
        0.35 * sampleUniform p.baseball_impact (t.baseballU i) +
        0.30 * sampleUniform p.football_impact (t.footballU i) +
        0.25 * sampleUniform p.basketball_impact (t.basketballU i) +
        0.10 * sampleUniform p.track_field_impact (t.trackU i) := by ring
    rw [h]
    simp only [apply_market_factors]
    rw [h2]
  · norm_num

/-- C2: the run is a deterministic function of the parameters, trial count
and random tape (the tape is what an identical seed fixes): two runs with
equal tapes produce equal trial tables, hence every column is element-wise
equal. -/
theorem run_deterministic (p : SimulationParameters) (n : ℕ) (t1 t2 : Tape)
    (h : t1 = t2) :
    ((Engine.init p n).run_simulation t1).2 = ((Engine.init p n).run_simulation t2).2 ∧
    ∀ c : TrialRow → FVal,
      (((Engine.init p n).run_simulation t1).2).map c =
        (((Engine.init p n).run_simulation t2).2).map c := by
  subst h
  exact ⟨rfl, fun _ => rfl⟩

/-- Witness for C2 at a concrete parameter set, trial count and tape. -/
theorem run_deterministic_witness :
    ((Engine.init defaultParams 3).run_simulation tapeConst).2 =
      ((Engine.init defaultParams 3).run_simulation tapeConst).2 :=
  (run_deterministic defaultParams 3 tapeConst tapeConst rfl).1

/-- C9: invoking generate statistics or sensitivity analysis on a freshly
constructed engine (no run has produced a trial table yet) yields the
state-error value modelling the ValueError the source raises, producing no
summary; the engine value itself is unmodified (the accessors are pure and
the stored state still has no results). -/
theorem statistics_before_run_state_error (p : SimulationParameters) (n : ℕ) :
    (Engine.init p n).generate_statistics = Except.error EngineError.engineStateError ∧
    (Engine.init p n).sensitivity_analysis = Except.error EngineError.engineStateError ∧
    (Engine.init p n).results = none :=
  ⟨rfl, rfl, rfl⟩

/-- C5 counterexample: constructing the engine on a parameter set whose basic
price range has low 49 > high 29 succeeds and stores the inverted range
unchanged; no ConfigurationError arises anywhere in the source, while the
validation the spec describes would reject this set. -/
theorem construction_accepts_inverted_range :
    (Engine.init badParams 10).params.basic_price = (49, 29) ∧
    ¬ ((49 : ℚ) ≤ 29) ∧
    paramsConsistent badParams = false ∧
    specValidate badParams = Except.error EngineError.configurationError := by
  refine ⟨rfl, by norm_num, by with_unfolding_all decide, ?_⟩
  have h : paramsConsistent badParams = false := by with_unfolding_all decide
  simp [specValidate, h]

/-- C5 amended: the source performs no construction-time validation (the
dataclass and the engine constructor store any ranges unchecked and always
succeed), and the default ranges are internally consistent (low ≤ high for
every factor), so the spec-described validation accepts the defaults. -/
theorem construction_unchecked_defaults_consistent :
    paramsConsistent defaultParams = true ∧
    specValidate defaultParams = Except.ok defaultParams ∧
    ∀ (p : SimulationParameters) (n : ℕ),
      (Engine.init p n).params = p ∧ (Engine.init p n).n_simulations = n ∧
        (Engine.init p n).results = none := by
  refine ⟨by with_unfolding_all decide, ?_, fun p n => ⟨rfl, rfl, rfl⟩⟩
  have h : paramsConsistent defaultParams = true := by with_unfolding_all decide
  simp [specValidate, h]

/-- Helper: division of finite values by a nonzero finite value is the exact
rational quotient. -/
theorem fdiv_fin_of_ne (a b : ℚ) (hb : b ≠ 0) : fdiv (.fin a) (.fin b) = .fin (a / b) := by
  simp [fdiv, hb]

/-- Helper: addition of finite values is the exact rational sum. -/
theorem fadd_fin (a b : ℚ) : fadd (.fin a) (.fin b) = .fin (a + b) := rfl

/-- Helper: clipping any finite value into a nonempty closed interval lands
inside that interval. -/
theorem inRangeCC_fclip_fin (y lo hi : ℚ) (hlh : lo ≤ hi) :
    inRangeCC (fclip (.fin y) lo hi) lo hi = true := by
  simp only [fclip, inRangeCC, decide_eq_true_eq]
  exact ⟨le_min (le_max_right y lo) hlh, min_le_right _ _⟩

/-- C3 counterexample: on the degenerate range (5, 5) with the nonzero skew
0.2 the source uses for project value, the bounded-normal sampler divides
zero by the zero standard deviation, the resulting NaN survives np.clip, and
the sampled value is not contained in the closed interval [5, 5]. -/
theorem degenerate_skew_sample_escapes_range :
    sampleNormalBounded (5, 5) 0.2 0 = FVal.nan ∧
    inRangeCC (sampleNormalBounded (5, 5) 0.2 0) 5 5 = false := by
  constructor <;> with_unfolding_all decide

/-- C3 amended: for a range with low ≤ high, the uniform sample (raw draw in
[0,1)) and the integer sample lie in [low, high]; the bounded skewed-normal
sample lies in [low, high] provided the range is nondegenerate or the skew is
zero (on a degenerate range with nonzero skew the skew transform divides by a
zero standard deviation and the sample is NaN, outside every range). -/
theorem samplers_range_containment (lo hi u z skew : ℚ) (ilo ihi : ℤ) (k : ℕ)
    (hlh : lo ≤ hi) (hu0 : 0 ≤ u) (hu1 : u < 1) (hint : ilo ≤ ihi)
    (hnd : lo < hi ∨ skew = 0) :
    (lo ≤ sampleUniform (lo, hi) u ∧ sampleUniform (lo, hi) u ≤ hi) ∧
    (ilo ≤ sampleInteger (ilo, ihi) k ∧ sampleInteger (ilo, ihi) k ≤ ihi) ∧
    inRangeCC (sampleNormalBounded (lo, hi) skew z) lo hi = true := by
  refine ⟨⟨?_, ?_⟩, ⟨?_, ?_⟩, ?_⟩
  · show lo ≤ lo + u * (hi - lo)
    nlinarith [mul_nonneg hu0 (sub_nonneg.mpr hlh)]
  · show lo + u * (hi - lo) ≤ hi
    nlinarith [mul_le_of_le_one_left (sub_nonneg.mpr hlh) hu1.le]
  · show ilo ≤ ilo + ((k % (ihi + 1 - ilo).toNat : ℕ) : ℤ)
    omega
  · show ilo + ((k % (ihi + 1 - ilo).toNat : ℕ) : ℤ) ≤ ihi
    have hw : 0 < (ihi + 1 - ilo).toNat := by omega
    have hmod : k % (ihi + 1 - ilo).toNat < (ihi + 1 - ilo).toNat := Nat.mod_lt _ hw
    omega
  · rcases eq_or_ne skew 0 with hs | hs
    · subst hs
      simp only [sampleNormalBounded, if_pos rfl]
      exact inRangeCC_fclip_fin _ _ _ hlh
    · have hlt : lo < hi := hnd.resolve_right hs
      have hstd : ((hi - lo) / 4 : ℚ) ≠ 0 := by
        have h4 : (0 : ℚ) < (hi - lo) / 4 := by linarith
        exact ne_of_gt h4
      simp only [sampleNormalBounded, if_neg hs]
      rw [fdiv_fin_of_ne _ _ hstd, fadd_fin]
      exact inRangeCC_fclip_fin _ _ _ hlh

/-- Witness for C3 amended at concrete ranges and draws. -/
theorem samplers_range_containment_witness :
    ((0 : ℚ) ≤ sampleUniform (0, 1) (1/2) ∧ sampleUniform (0, 1) (1/2) ≤ 1) ∧
    ((0 : ℤ) ≤ sampleInteger (0, 5) 7 ∧ sampleInteger (0, 5) 7 ≤ 5) ∧
    inRangeCC (sampleNormalBounded (0, 1) 0.2 (1/2)) 0 1 = true :=
  samplers_range_containment 0 1 (1/2) (1/2) 0.2 0 5 7 (by norm_num) (by norm_num)
    (by norm_num) (by norm_num) (Or.inl (by norm_num))

/-- C10: with any degenerate project value range (low = high) and the nonzero
skew 0.2 hard-wired in simulate project revenue, the bounded-normal sampler
produces NaN (zero squared deviation divided by zero standard deviation),
the NaN survives the clamp and is not contained in [low, high], and every
downstream outcome of the trial (project revenue, adjusted revenue, gross
profit, profit margin, roi and hours saved) is NaN, hence non-finite. -/
theorem degenerate_project_range_nan (p : SimulationParameters) (t : Tape) (i : ℕ)
    (c : ℚ) (hp : p.project_value = (c, c)) :
    sampleNormalBounded p.project_value 0.2 (t.projectValueZ i) = FVal.nan ∧
    inRangeCC (sampleNormalBounded p.project_value 0.2 (t.projectValueZ i)) c c = false ∧
    (run_simulation_row p t i).project_revenue = FVal.nan ∧
    (run_simulation_row p t i).adjusted_revenue = FVal.nan ∧
    (run_simulation_row p t i).gross_profit = FVal.nan ∧
    (run_simulation_row p t i).profit_margin = FVal.nan ∧
    (run_simulation_row p t i).roi_percent = FVal.nan ∧
    (run_simulation_row p t i).hours_saved = FVal.nan := by
  have hnan : sampleNormalBounded (c, c) 0.2 (t.projectValueZ i) = FVal.nan := by
    simp only [sampleNormalBounded]
    rw [if_neg (show (0.2 : ℚ) ≠ 0 by norm_num)]
    rw [show ((0.2 : ℚ) * ((c + c) / 2 + (c - c) / 4 * t.projectValueZ i - (c + c) / 2) ^ 2)
        = 0 by ring]
    rw [show ((c - c) / 4 : ℚ) = 0 by ring]
    simp [fdiv, fadd, fclip]
  have hproj : (simulate_project_revenue p t i).total_projects = FVal.nan := by
    simp only [simulate_project_revenue]
    rw [hp, hnan]
    simp [fmul]
  have hrev : fadd (fadd (fadd (simulate_subscription_revenue p t i).total_subscription
      (simulate_api_revenue p t i).total_api) (simulate_project_revenue p t i).total_projects)
      (simulate_licensing_revenue p t i).monthly_licensing = FVal.nan := by
    rw [hproj]
    simp only [simulate_subscription_revenue, simulate_api_revenue]
    simp [fadd]
  have hadj : apply_market_factors p t i
      (fadd (fadd (fadd (simulate_subscription_revenue p t i).total_subscription
        (simulate_api_revenue p t i).total_api)
        (simulate_project_revenue p t i).total_projects)
        (simulate_licensing_revenue p t i).monthly_licensing) = FVal.nan := by
    rw [hrev]
    simp only [apply_market_factors]
    simp [fmul]
  have hgross : fsub (apply_market_factors p t i
      (fadd (fadd (fadd (simulate_subscription_revenue p t i).total_subscription
        (simulate_api_revenue p t i).total_api)
        (simulate_project_revenue p t i).total_projects)
        (simulate_licensing_revenue p t i).monthly_licensing))
      (simulate_costs p t i).total_costs = FVal.nan := by
    rw [hadj]
    simp [fsub, fadd]
  refine ⟨by rw [hp]; exact hnan, by rw [hp, hnan]; rfl, hproj, hadj, hgross, ?_, ?_, ?_⟩
  · show fdiv _ _ = _
    rw [hgross]
    simp [fdiv]
  · show fmul (fdiv _ _) _ = _
    rw [hgross]
    simp [fdiv, fmul]
  · show fdiv _ _ = _
    rw [hgross]
    simp [fdiv]

/-- Witness for C10 at a concrete degenerate parameter set. -/
theorem degenerate_project_range_nan_witness :
    sampleNormalBounded degParams.project_value 0.2 (tapeConst.projectValueZ 0) = FVal.nan :=
  (degenerate_project_range_nan degParams tapeConst 0 5000 rfl).1

/-- C6 counterexample: the source never clamps the retention factor
1 - churn.  With the churn range (2, 2) the retention used is -1 (negative),
and the total subscriber count of the trial is the negative value -75, which
a clamped or guarded retention in [0, 1] could never produce. -/
theorem churn_retention_negative :
    (1 - sampleUniform negChurnParams.churn_rate (tapeConst.churnU 0) : ℚ) = -1 ∧
    ¬ ((0 : ℚ) ≤ 1 - sampleUniform negChurnParams.churn_rate (tapeConst.churnU 0)) ∧
    (simulate_subscription_revenue negChurnParams tapeConst 0).total_subscribers =
      FVal.fin (-75) ∧
    fleB (FVal.fin 0)
      ((simulate_subscription_revenue negChurnParams tapeConst 0).total_subscribers) = false := by
  refine ⟨?_, ?_, ?_, ?_⟩ <;> with_unfolding_all decide

/-- C6 amended: retention 1 - churn is not clamped by the source; whenever
the declared churn range lies inside [0, 1] (as the default (0.02, 0.08)
does) and the raw draw is in [0, 1), the retention lies in [0, 1], the single
churn draw of the trial is shared by all three tier revenues and by the
subscriber total, and the churn-scaled total subscriber count is at most the
unscaled subscriber sum. -/
theorem churn_bound (p : SimulationParameters) (t : Tape) (i : ℕ)
    (hc0 : 0 ≤ p.churn_rate.1) (hc1 : p.churn_rate.2 ≤ 1)
    (hcr : p.churn_rate.1 ≤ p.churn_rate.2)
    (hu0 : 0 ≤ t.churnU i) (hu1 : t.churnU i < 1)
    (hb : 0 ≤ p.basic_subscribers.1) (hpr : 0 ≤ p.pro_subscribers.1)
    (hent : 0 ≤ p.enterprise_subscribers.1) :
    0 ≤ 1 - sampleUniform p.churn_rate (t.churnU i) ∧
    1 - sampleUniform p.churn_rate (t.churnU i) ≤ 1 ∧
    (simulate_subscription_revenue p t i).basic =
      FVal.fin ((sampleInteger p.basic_subscribers (t.basicSubsR i) : ℚ) *
        sampleUniform p.basic_price (t.basicPriceU i) *
        (1 - sampleUniform p.churn_rate (t.churnU i))) ∧
    (simulate_subscription_revenue p t i).pro =
      FVal.fin ((sampleInteger p.pro_subscribers (t.proSubsR i) : ℚ) *
        sampleUniform p.pro_price (t.proPriceU i) *
        (1 - sampleUniform p.churn_rate (t.churnU i))) ∧
    (simulate_subscription_revenue p t i).enterprise =
      FVal.fin ((sampleInteger p.enterprise_subscribers (t.entSubsR i) : ℚ) *
        sampleUniform p.enterprise_price (t.entPriceU i) *
        (1 - sampleUniform p.churn_rate (t.churnU i))) ∧
    fleB (simulate_subscription_revenue p t i).total_subscribers
      (FVal.fin ((sampleInteger p.basic_subscribers (t.basicSubsR i) : ℚ) +
        (sampleInteger p.pro_subscribers (t.proSubsR i) : ℚ) +
        (sampleInteger p.enterprise_subscribers (t.entSubsR i) : ℚ))) = true := by
  have hretnn : 0 ≤ 1 - sampleUniform p.churn_rate (t.churnU i) := by
    show 0 ≤ 1 - (p.churn_rate.1 + t.churnU i * (p.churn_rate.2 - p.churn_rate.1))
    nlinarith [mul_le_of_le_one_left (sub_nonneg.mpr hcr) hu1.le]
  have hretle : 1 - sampleUniform p.churn_rate (t.churnU i) ≤ 1 := by
    show 1 - (p.churn_rate.1 + t.churnU i * (p.churn_rate.2 - p.churn_rate.1)) ≤ 1
    nlinarith [mul_nonneg hu0 (sub_nonneg.mpr hcr)]
  have hcount : ∀ (r : ℤ × ℤ) (k : ℕ), 0 ≤ r.1 → (0 : ℚ) ≤ (sampleInteger r k : ℚ) := by
    intro r k h0
    have : (0 : ℤ) ≤ sampleInteger r k := by
      show (0 : ℤ) ≤ r.1 + ((k % (r.2 + 1 - r.1).toNat : ℕ) : ℤ)
      omega
    exact_mod_cast this
  refine ⟨hretnn, hretle, rfl, rfl, rfl, ?_⟩
  simp only [simulate_subscription_revenue, fleB, decide_eq_true_eq]
  have hsum : (0 : ℚ) ≤ (sampleInteger p.basic_subscribers (t.basicSubsR i) : ℚ) +
      (sampleInteger p.pro_subscribers (t.proSubsR i) : ℚ) +
      (sampleInteger p.enterprise_subscribers (t.entSubsR i) : ℚ) :=
    add_nonneg (add_nonneg (hcount _ _ hb) (hcount _ _ hpr)) (hcount _ _ hent)
  have hmul := mul_le_of_le_one_right hsum hretle
  calc ((sampleInteger p.basic_subscribers (t.basicSubsR i) : ℚ) +
        (sampleInteger p.pro_subscribers (t.proSubsR i) : ℚ) +
        (sampleInteger p.enterprise_subscribers (t.entSubsR i) : ℚ)) *
        (1 - sampleUniform p.churn_rate (t.churnU i))
      ≤ (sampleInteger p.basic_subscribers (t.basicSubsR i) : ℚ) +
        (sampleInteger p.pro_subscribers (t.proSubsR i) : ℚ) +
        (sampleInteger p.enterprise_subscribers (t.entSubsR i) : ℚ) := hmul

/-- Witness for C6 amended at the default parameter set and a constant
tape. -/
theorem churn_bound_witness :
    0 ≤ 1 - sampleUniform defaultParams.churn_rate (tapeConst.churnU 0) :=
  (churn_bound defaultParams tapeConst 0 (by norm_num [defaultParams])
    (by norm_num [defaultParams]) (by norm_num [defaultParams])
    (by norm_num [tapeConst]) (by norm_num [tapeConst])
    (by norm_num [defaultParams]) (by norm_num [defaultParams])
    (by norm_num [defaultParams])).1

/-- Helper: dividing any value by the finite zero produced by zeroed cost
ranges yields NaN or a signed infinity, never a finite value. -/
theorem fdiv_fin_zero_cases (x : FVal) :
    fdiv x (FVal.fin 0) = FVal.nan ∨ fdiv x (FVal.fin 0) = FVal.posInf ∨
      fdiv x (FVal.fin 0) = FVal.negInf := by
  rcases x with q | _ | _ | _
  · by_cases hq : q = 0
    · exact Or.inl (by simp [fdiv, hq])
    · rcases lt_or_le 0 q with h | h
      · exact Or.inr (Or.inl (by simp [fdiv, hq, h]))
      · exact Or.inr (Or.inr (by simp [fdiv, hq, not_lt.mpr h]))
  · exact Or.inr (Or.inl (by simp [fdiv]))
  · exact Or.inr (Or.inr (by simp [fdiv]))
  · exact Or.inl rfl

/-- Helper: multiplying a non-finite value by the constant 100 never yields a
finite value. -/
theorem fmul_nonfinite_hundred (y : FVal)
    (h : y = FVal.nan ∨ y = FVal.posInf ∨ y = FVal.negInf) :
    (fmul y (FVal.fin 100)).isFinite = false := by
  rcases h with rfl | rfl | rfl
  · rfl
  · norm_num [fmul, FVal.isFinite]
  · norm_num [fmul, FVal.isFinite]

/-- C1 counterexample: with all four cost ranges set to (0, 0) and one trial,
total_costs is zero and roi_percent is +inf for the trial; generate
statistics succeeds and reports +inf as the roi mean: the non-finite value is
carried into the summary, not excluded (the spec-modelled excluding mean
would be NaN here, with every value excluded), and no exclusion count exists
anywhere in the summary rows. -/
theorem roi_infinities_included_in_statistics :
    (runResults zeroCostParams tapeConst 1).map TrialRow.total_costs = [FVal.fin 0] ∧
    (runResults zeroCostParams tapeConst 1).map TrialRow.roi_percent = [FVal.posInf] ∧
    (((Engine.init zeroCostParams 1).run_simulation tapeConst).1.generate_statistics.toOption.bind
      (fun l => (l.get? 3).map StatRow.Mean)) = some FVal.posInf ∧
    specExcludingMean ((runResults zeroCostParams tapeConst 1).map TrialRow.roi_percent) =
      FVal.nan ∧
    FVal.posInf.isFinite = false := by
  refine ⟨?_, ?_, ?_, ?_, rfl⟩ <;> with_unfolding_all decide

/-- Helper: dividing any value by the finite zero never yields a finite
value. -/
theorem fdiv_fin_zero_nonfinite (x : FVal) : (fdiv x (FVal.fin 0)).isFinite = false := by
  rcases fdiv_fin_zero_cases x with h | h | h <;> rw [h] <;> rfl

/-- C1 amended: for every run and trial, a zero adjusted_revenue denominator
makes that trial's profit_margin non-finite and a zero total_costs
denominator makes that trial's roi_percent non-finite (in this exact-rational
model the non-finite outcomes arise exactly at zero denominators; the
near-zero overflow of the source is a floating-point rounding effect of the
same divisions, idealized away here), the run completes (its model is a total
function) and generate statistics still succeeds afterwards; with all four
cost ranges set to (0, 0) every trial has total_costs exactly zero.  The
source does not exclude the non-finite values from the summary statistics
(only NaN is skipped by the pandas aggregations, infinities flow through) and
reports no exclusion count. -/
theorem division_by_zero_isolated (p : SimulationParameters) (t : Tape) (n i : ℕ) :
    ((run_simulation_row p t i).adjusted_revenue = FVal.fin 0 →
      (run_simulation_row p t i).profit_margin.isFinite = false) ∧
    ((run_simulation_row p t i).total_costs = FVal.fin 0 →
      (run_simulation_row p t i).roi_percent.isFinite = false) ∧
    (p.infrastructure_monthly = (0, 0) → p.data_acquisition = (0, 0) →
      p.personnel_allocation = (0, 0) → p.marketing_monthly = (0, 0) →
      (run_simulation_row p t i).total_costs = FVal.fin 0) ∧
    ∃ l, (((Engine.init p n).run_simulation t).1).generate_statistics = Except.ok l := by
  refine ⟨?_, ?_, ?_, ⟨_, rfl⟩⟩
  · intro hadj
    have hm : (run_simulation_row p t i).profit_margin =
        fdiv (run_simulation_row p t i).gross_profit
          (run_simulation_row p t i).adjusted_revenue := rfl
    rw [hm, hadj]
    exact fdiv_fin_zero_nonfinite _
  · intro hcosts
    have hroi : (run_simulation_row p t i).roi_percent =
        fmul (fdiv (run_simulation_row p t i).gross_profit
          (run_simulation_row p t i).total_costs) (FVal.fin 100) := rfl
    rw [hroi, hcosts]
    exact fmul_nonfinite_hundred _ (fdiv_fin_zero_cases _)
  · intro h1 h2 h3 h4
    show (simulate_costs p t i).total_costs = FVal.fin 0
    simp only [simulate_costs, sampleUniform, sampleNormalBounded, h1, h2, h3, h4]
    norm_num [fclip, fmul, fadd]

/-- Witness for C1 amended at a parameter set whose trial has both a zero
adjusted revenue and zero total costs, discharging every hypothesis. -/
theorem division_by_zero_isolated_witness :
    (run_simulation_row zeroDenomParams tapeConst 0).profit_margin.isFinite = false ∧
    (run_simulation_row zeroDenomParams tapeConst 0).roi_percent.isFinite = false ∧
    (run_simulation_row zeroDenomParams tapeConst 0).total_costs = FVal.fin 0 :=
  ⟨(division_by_zero_isolated zeroDenomParams tapeConst 1 0).1
      (by with_unfolding_all decide),
   (division_by_zero_isolated zeroDenomParams tapeConst 1 0).2.1
      (by with_unfolding_all decide),
   (division_by_zero_isolated zeroDenomParams tapeConst 1 0).2.2.1 rfl rfl rfl rfl⟩

/-- C8: after a run, sensitivity analysis returns one row per factor, each
built by mkSensRow, so each impact score equals
(std of the factor column / mean of the factor column) times the absolute
correlation of the factor column with the monthly value column; the returned
rows are sorted with respect to SensLE, the descending impact-score order
(NaN scores last) realized by the pandas descending sort. -/
theorem sensitivity_formula_and_descending (p : SimulationParameters) (t : Tape) (n : ℕ) :
    ∃ rows : List SensRow,
      (((Engine.init p n).run_simulation t).1).sensitivity_analysis = Except.ok rows ∧
      rows.Forall (fun r => ∃ f : FactorId,
        r = mkSensRow ((runResults p t n).map TrialRow.monthly_value)
              ((runResults p t n).map (factorColumn f)) f ∧
        r.ImpactScore = fmul
          (fdiv (pandasStd ((runResults p t n).map (factorColumn f)))
                (pandasMean ((runResults p t n).map (factorColumn f))))
          (fabs (pearson_corr ((runResults p t n).map TrialRow.monthly_value)
                 ((runResults p t n).map (factorColumn f))))) ∧
      rows.Sorted SensLE := by
  refine ⟨List.insertionSort SensLE (sens_factors.map (fun f =>
      mkSensRow ((runResults p t n).map TrialRow.monthly_value)
        ((runResults p t n).map (factorColumn f)) f)), rfl, ?_,
    List.sorted_insertionSort SensLE _⟩
  rw [List.forall_iff_forall_mem]
  intro r hr
  have hperm := List.perm_insertionSort SensLE
    (sens_factors.map (fun f =>
      mkSensRow ((runResults p t n).map TrialRow.monthly_value)
        ((runResults p t n).map (factorColumn f)) f))
  rw [hperm.mem_iff] at hr
  rcases List.mem_map.mp hr with ⟨f, _, rfl⟩
  exact ⟨f, rfl, rfl⟩
